import Mathlib

/-!
Shallow embedding of the commitlore provider core
(internal/core/config/provider.go, the provider factory, the llm clients
and the async LLM wrapper), together with theorems checking the
natural-language specification against it.

Conventions:
* Go strings are Lean `String`; Go `map[string]string` is an association
  list `List (String × String)` queried with `List.lookup` (the only map
  operation the source performs is keyed lookup).
* `os.Getenv` semantics are kept: an unset variable reads as `""`.
* Go's sentinel errors built with `fmt.Errorf` are modelled as the exact
  format strings the source produces (with `%s` spliced in).
* The current version of `provider.go` does not persist anything:
  `LoadProviderConfig` returns the default configuration and
  `SaveProviderConfig` is a documented no-op ("Provider configuration is
  not persisted to disk").  The persisted-record state is still carried
  as an explicit parameter so that round-trip properties are statable.
-/

namespace Commitlore

/-- Process environment as seen by the source: `os.Getenv` (unset reads
as the empty string, exactly as in Go) and `exec.LookPath` (resolving an
executable on PATH, `none` when resolution fails). -/
structure Env where
  getenv : String → String
  lookPath : String → Option String

/-- ProviderType is a string type in the source (`type ProviderType string`). -/
abbrev ProviderType := String

/-- Constant `APIProviderType ProviderType = "api"`. -/
def APIProviderType : ProviderType := "api"

/-- Constant `CLIProviderType ProviderType = "cli"`. -/
def CLIProviderType : ProviderType := "cli"

/-- Constant `LocalProviderType ProviderType = "local"`. -/
def LocalProviderType : ProviderType := "local"

/-- Provider descriptor, from `type Provider struct` in provider.go.
The Go field `Type` is called `typ` here because `Type` is reserved in
Lean; all other field names match the source. -/
structure Provider where
  ID : String
  Name : String
  typ : ProviderType
  Description : String
  Enabled : Bool
  Available : Bool
  Config : List (String × String)
  deriving DecidableEq

/-- Registry of providers plus the active provider id, from
`type ProviderConfig struct` in provider.go. -/
structure ProviderConfig where
  Providers : List Provider
  ActiveProviderID : String
  deriving DecidableEq

/-- DefaultProviderConfig from the current provider.go: claude-api,
claude-cli and openai-api enabled, gemini-api and ollama disabled,
active provider defaulting to "claude-cli". -/
def DefaultProviderConfig : ProviderConfig :=
  { Providers :=
      [ { ID := "claude-api"
          Name := "Claude API"
          typ := APIProviderType
          Description := "Anthropic Claude via API (requires ANTHROPIC_API_KEY)"
          Enabled := true
          Available := false
          Config := [("model", "claude-3-5-sonnet-20241022"), ("api_key", "ANTHROPIC_API_KEY")] }
      , { ID := "claude-cli"
          Name := "Claude CLI"
          typ := CLIProviderType
          Description := "Anthropic Claude via CLI tool"
          Enabled := true
          Available := false
          Config := [] }
      , { ID := "openai-api"
          Name := "OpenAI API"
          typ := APIProviderType
          Description := "OpenAI GPT models via API (requires OPENAI_API_KEY)"
          Enabled := true
          Available := false
          Config := [("model", "gpt-4"), ("api_key", "OPENAI_API_KEY")] }
      , { ID := "gemini-api"
          Name := "Gemini API"
          typ := APIProviderType
          Description := "Google Gemini via API (requires GEMINI_API_KEY)"
          Enabled := false
          Available := false
          Config := [("model", "gemini-pro"), ("api_key", "GEMINI_API_KEY")] }
      , { ID := "ollama"
          Name := "Ollama"
          typ := LocalProviderType
          Description := "Local models via Ollama"
          Enabled := false
          Available := false
          Config := [("endpoint", "http://localhost:11434"), ("model", "llama2")] }
      ]
    ActiveProviderID := "claude-cli" }

/-- State of the persisted registry record on disk.  The current source
never reads or writes it, but it is carried explicitly so that load/save
round-trip claims can be stated. -/
inductive PersistedRecord
  | absent
  | corrupt (raw : String)
  | valid (cfg : ProviderConfig)
  deriving DecidableEq

/-- LoadProviderConfig from the current provider.go.  The source reads
nothing from disk: "LoadProviderConfig returns the default provider
configuration" and unconditionally returns `(DefaultProviderConfig(), nil)`.
The persisted record is a parameter only to make the claims statable;
the function ignores it, exactly as the source does. -/
def LoadProviderConfig (_fs : PersistedRecord) : Except String ProviderConfig :=
  .ok DefaultProviderConfig

/-- SaveProviderConfig from the current provider.go: "SaveProviderConfig
is a no-op since we don't persist configuration"; it returns `nil` and
leaves the on-disk record untouched.  The result pairs the (unchanged)
record with the (absent) error. -/
def SaveProviderConfig (fs : PersistedRecord) (_config : ProviderConfig) :
    PersistedRecord × Option String :=
  (fs, none)

/-- CheckProviderAvailability from provider.go.  API providers: the
config key "api_key" names an environment variable, available iff that
variable's value is non-empty (missing key means unavailable).  CLI
providers: only "claude-cli" is probed, via `exec.LookPath("claude")`.
Local providers: "ollama" has a TODO probe returning false; every other
id is false; unknown provider types are false. -/
def CheckProviderAvailability (env : Env) (provider : Provider) : Bool :=
  if provider.typ = APIProviderType then
    match provider.Config.lookup "api_key" with
    | some envVar => env.getenv envVar != ""
    | none => false
  else if provider.typ = CLIProviderType then
    if provider.ID = "claude-cli" then (env.lookPath "claude").isSome
    else false
  else if provider.typ = LocalProviderType then
    if provider.ID = "ollama" then false
    else false
  else false

/-- UpdateProviderAvailability from provider.go: recomputes the
`Available` field of every provider from the probe, in place. -/
def UpdateProviderAvailability (env : Env) (config : ProviderConfig) : ProviderConfig :=
  { config with
    Providers := config.Providers.map fun p =>
      { p with Available := CheckProviderAvailability env p } }

/-- GetAvailableProviders from provider.go: a loop over the providers
appending each one with `Enabled && Available` to the result. -/
def GetAvailableProviders (config : ProviderConfig) : List Provider :=
  config.Providers.foldl
    (fun available provider =>
      if provider.Enabled && provider.Available then available ++ [provider] else available)
    []

/-- GetProviderByID from provider.go: first provider whose ID matches,
`none` when no provider matches. -/
def GetProviderByID (config : ProviderConfig) (id : String) : Option Provider :=
  config.Providers.find? fun p => p.ID = id

/-- Live backend instance, the value a successful factory call returns.
`claudeAPI` carries the api key read from the environment
(`llm.NewClaudeClient(apiKey)`); `claudeCLI` carries the resolved
executable path (`llm.NewClaudeCLIClient()`). -/
inductive LLMClient
  | claudeAPI (apiKey : String)
  | claudeCLI (execPath : String)
  deriving DecidableEq

/-- createAPIProvider from the provider factory: a switch on the
provider id.  "claude-api" reads the api-key environment variable and
builds the client; "openai-api" and "gemini-api" are explicit
not-yet-implemented errors; any other id is an "unsupported API
provider" error. -/
def createAPIProvider (env : Env) (provider : Provider) : Except String LLMClient :=
  if provider.ID = "claude-api" then
    match provider.Config.lookup "api_key" with
    | none => .error "API key environment variable not configured"
    | some envVar =>
      let apiKey := env.getenv envVar
      if apiKey = "" then .error ("API key not found in environment variable " ++ envVar)
      else .ok (.claudeAPI apiKey)
  else if provider.ID = "openai-api" then
    .error "OpenAI API provider not yet implemented"
  else if provider.ID = "gemini-api" then
    .error "Gemini API provider not yet implemented"
  else
    .error ("unsupported API provider: " ++ provider.ID)

/-- createCLIProvider from the provider factory: "claude-cli" resolves
the executable (`NewClaudeCLIClient`, failing when LookPath fails); any
other id is an "unsupported CLI provider" error. -/
def createCLIProvider (env : Env) (provider : Provider) : Except String LLMClient :=
  if provider.ID = "claude-cli" then
    match env.lookPath "claude" with
    | some execPath => .ok (.claudeCLI execPath)
    | none => .error "claude CLI not found in PATH"
  else
    .error ("unsupported CLI provider: " ++ provider.ID)

/-- createLocalProvider from the provider factory: "ollama" is an
explicit not-yet-implemented error; any other id is an "unsupported
local provider" error. -/
def createLocalProvider (_env : Env) (provider : Provider) : Except String LLMClient :=
  if provider.ID = "ollama" then
    .error "Ollama provider not yet implemented"
  else
    .error ("unsupported local provider: " ++ provider.ID)

/-- createProvider from the provider factory: closed dispatch over the
provider type. -/
def createProvider (env : Env) (provider : Provider) : Except String LLMClient :=
  if provider.typ = APIProviderType then createAPIProvider env provider
  else if provider.typ = CLIProviderType then createCLIProvider env provider
  else if provider.typ = LocalProviderType then createLocalProvider env provider
  else .error ("unsupported provider type: " ++ provider.typ)

/-- Error string for a missing active provider, `fmt.Errorf("active provider %s not found")`
with the id in single quotes. -/
def errActiveNotFound (id : String) : String :=
  "active provider \x27" ++ id ++ "\x27 not found"

/-- Error string for a disabled active provider. -/
def errActiveDisabled (id : String) : String :=
  "active provider \x27" ++ id ++ "\x27 is disabled"

/-- Error string for an unavailable active provider. -/
def errActiveUnavailable (id : String) : String :=
  "active provider \x27" ++ id ++ "\x27 is not available"

/-- CreateActiveProvider from the provider factory: resolves the active
id, then checks Enabled, then runs the availability probe fresh, then
constructs the backend; each failure is its own error string. -/
def CreateActiveProvider (env : Env) (config : ProviderConfig) :
    Except String (LLMClient × String) :=
  match GetProviderByID config config.ActiveProviderID with
  | none => .error (errActiveNotFound config.ActiveProviderID)
  | some activeProvider =>
    if !activeProvider.Enabled then
      .error (errActiveDisabled activeProvider.ID)
    else if !CheckProviderAvailability env activeProvider then
      .error (errActiveUnavailable activeProvider.ID)
    else
      match createProvider env activeProvider with
      | .error e => .error ("failed to create provider \x27" ++ activeProvider.ID ++ "\x27: " ++ e)
      | .ok client => .ok (client, activeProvider.Name)

/-- CreateProvider (by id) from the provider factory; same validation
chain as CreateActiveProvider but for an arbitrary id, with the
"provider ... " error strings. -/
def CreateProvider (env : Env) (config : ProviderConfig) (providerID : String) :
    Except String (LLMClient × String) :=
  match GetProviderByID config providerID with
  | none => .error ("provider \x27" ++ providerID ++ "\x27 not found")
  | some provider =>
    if !provider.Enabled then
      .error ("provider \x27" ++ provider.ID ++ "\x27 is disabled")
    else if !CheckProviderAvailability env provider then
      .error ("provider \x27" ++ provider.ID ++ "\x27 is not available")
    else
      match createProvider env provider with
      | .error e => .error ("failed to create provider \x27" ++ provider.ID ++ "\x27: " ++ e)
      | .ok client => .ok (client, provider.Name)

/-- SetActiveProvider from the provider factory: validates that the
target exists, is enabled and probes available, then mutates
ActiveProviderID and calls SaveProviderConfig (a no-op in the current
source).  Returns the mutated registry together with the persisted
record after the save. -/
def SetActiveProvider (env : Env) (fs : PersistedRecord) (config : ProviderConfig)
    (providerID : String) : Except String (ProviderConfig × PersistedRecord) :=
  match GetProviderByID config providerID with
  | none => .error ("provider \x27" ++ providerID ++ "\x27 not found")
  | some provider =>
    if !provider.Enabled then
      .error ("provider \x27" ++ providerID ++ "\x27 is disabled")
    else if !CheckProviderAvailability env provider then
      .error ("provider \x27" ++ providerID ++ "\x27 is not available")
    else
      let config2 := { config with ActiveProviderID := providerID }
      match SaveProviderConfig fs config2 with
      | (_fs2, some e) => .error ("failed to save configuration: " ++ e)
      | (fs2, none) => .ok (config2, fs2)

/-! Async LLM wrapper (llm/async.go).

The source dispatches a goroutine that
1. derives `timeoutCtx` from the caller's context with deadline
   `a.timeout` after dispatch,
2. blocks on `provider.GenerateContent(timeoutCtx, prompt)` until the
   provider returns (there is no select racing the provider against the
   deadline; the goroutine only resumes when the provider call returns),
3. then runs a select between sending the provider's result on the
   size-1 buffered channel and the `timeoutCtx.Done()` case; the send is
   always ready (the buffer is empty), so when the context is already
   done both cases are ready and the Go runtime picks one of the two
   uniformly; the Done case re-sends a DeadlineExceeded response only
   when `timeoutCtx.Err()` is DeadlineExceeded, and sends nothing when
   the context was cancelled,
4. closes the channel (deferred) as the goroutine exits.

`WaitForLLMResponse` performs a single receive on the channel; a receive
on the closed channel with no buffered message yields the zero value
`LLMResponse{Content: "", Error: nil}`.

A single run is modelled by its externally chosen data: the provider's
return time (latency) and returned result, the wrapper timeout, the
parent context's cancellation time if any, and the runtime's choice in
the select when both cases are ready.  All channel activity happens at
the provider's return time, because the goroutine is blocked until then. -/

/-- Go error values the wrapper distinguishes: the two context sentinel
errors and arbitrary backend errors. -/
inductive GoError
  | deadlineExceeded
  | canceled
  | backend (msg : String)
  deriving DecidableEq

/-- Message text of a Go error (`err.Error()`). -/
def GoError.toMessage : GoError → String
  | .deadlineExceeded => "context deadline exceeded"
  | .canceled => "context canceled"
  | .backend m => m

/-- LLMResponse from async.go: the value sent over the channel
(`Content string; Error error`); `Error = none` is Go's nil error. -/
structure LLMResponse where
  Content : String
  Error : Option GoError
  deriving DecidableEq

/-- LLMResponseMsg from async.go: the Bubble Tea message handed to the
UI, with the error flattened to its message string ("" for nil). -/
structure LLMResponseMsg where
  Content : String
  Error : String
  deriving DecidableEq

/-- One run of `GenerateContentAsync`/`GenerateContentWithSystemPromptAsync`:
the dispatch happens at time 0; `latency` is when the provider call
returns with `(resContent, resErr)`; `timeout` is the wrapper deadline;
`cancelAt` is the parent context's cancellation time if the parent is
ever cancelled; `pickDone` is the runtime's choice in the final select
when both cases are ready (true picks the Done case). -/
structure DispatchRun where
  latency : Nat
  resContent : String
  resErr : Option GoError
  timeout : Nat
  cancelAt : Option Nat
  pickDone : Bool
  deriving DecidableEq

/-- Time at which `timeoutCtx.Done()` closes: the deadline, or the
parent cancellation if that comes first. -/
def ctxDoneTime (r : DispatchRun) : Nat :=
  match r.cancelAt with
  | none => r.timeout
  | some tc => min r.timeout tc

/-- Whether `timeoutCtx` is already done when the provider call returns. -/
def ctxDone (r : DispatchRun) : Bool :=
  decide (ctxDoneTime r ≤ r.latency)

/-- The value of `timeoutCtx.Err()` once the context is done:
DeadlineExceeded when the deadline fired no later than any parent
cancellation, Canceled otherwise. -/
def ctxErr (r : DispatchRun) : GoError :=
  if r.timeout ≤ ctxDoneTime r then .deadlineExceeded else .canceled

/-- Messages written to the response channel during the run, in order.
If the context is not yet done at provider return, the select's only
ready case is the send, so the provider result goes out.  If the
context is done, both cases are ready: the runtime either still
performs the send (`pickDone = false`), or takes the Done case
(`pickDone = true`), which re-sends a DeadlineExceeded response when
`timeoutCtx.Err()` is DeadlineExceeded and sends nothing otherwise. -/
def dispatchSends (r : DispatchRun) : List LLMResponse :=
  if !ctxDone r then
    [{ Content := r.resContent, Error := r.resErr }]
  else if !r.pickDone then
    [{ Content := r.resContent, Error := r.resErr }]
  else if ctxErr r = .deadlineExceeded then
    [{ Content := "", Error := some .deadlineExceeded }]
  else
    []

/-- Conversion performed by WaitForLLMResponse: nil error becomes "". -/
def toMsg (response : LLMResponse) : LLMResponseMsg :=
  { Content := response.Content
    Error := match response.Error with
      | none => ""
      | some e => e.toMessage }

/-- WaitForLLMResponse from async.go: a single receive on the channel.
The channel is always closed by the goroutine, so the receive always
completes: it yields the single sent message when there is one, and the
zero value of LLMResponse when the channel closed without a send. -/
def WaitForLLMResponse (sends : List LLMResponse) : LLMResponseMsg :=
  match sends with
  | [] => toMsg { Content := "", Error := none }
  | response :: _ => toMsg response

/-- The single message the UI observes for a run. -/
def observedOutcome (r : DispatchRun) : LLMResponseMsg :=
  WaitForLLMResponse (dispatchSends r)

/-- The time at which the run's channel activity (send and close)
happens: the provider's return time, since the goroutine is blocked on
the provider call until then. -/
def deliveryTime (r : DispatchRun) : Nat := r.latency

/-- The message corresponding to the provider's genuine result. -/
def genuineMsg (r : DispatchRun) : LLMResponseMsg :=
  toMsg { Content := r.resContent, Error := r.resErr }

/-- The message corresponding to a Timeout outcome. -/
def timeoutMsg : LLMResponseMsg :=
  toMsg { Content := "", Error := some .deadlineExceeded }

/-! Capability interface implementations (llm/claude_api.go,
llm/claude_cli.go and the OpenAI client).

Each client's transport is an oracle: an HTTP round trip is a function
from the context handle and the marshalled request value to a response
or a network error, JSON decoding of the body is a function from the
body to an optional decoded value, and a CLI run is a function from the
context handle and argument list to the process outcome.  The bodies of
GenerateContentWithSystemPrompt below follow the source control flow;
GenerateContent is, in each client, the source's literal delegation to
GenerateContentWithSystemPrompt with an empty system prompt. -/

/-- Handle standing for the `context.Context` argument the clients pass
through to their transport. -/
abbrev Ctx := Nat

/-- ClaudeMessage from llm/types.go. -/
structure ClaudeMessage where
  Role : String
  Content : String
  deriving DecidableEq

/-- ClaudeRequest from llm/types.go (System has omitempty and defaults
to the empty string). -/
structure ClaudeRequest where
  Model : String
  MaxTokens : Nat
  Messages : List ClaudeMessage
  System : String
  deriving DecidableEq

/-- ClaudeContent from llm/types.go. -/
structure ClaudeContent where
  typ : String
  Text : String
  deriving DecidableEq

/-- ClaudeResponse from llm/types.go (usage fields kept as a pair). -/
structure ClaudeResponse where
  ID : String
  Content : List ClaudeContent
  Model : String
  InputTokens : Nat
  OutputTokens : Nat
  deriving DecidableEq

/-- ClaudeClient from llm/types.go: api key plus the constant base URL
and model that NewClaudeClient fills in. -/
structure ClaudeClient where
  apiKey : String
  baseURL : String
  model : String
  deriving DecidableEq

/-- Outcome of an HTTP round trip: a response (status code and body) or
a transport error. -/
inductive HttpResult
  | ok (statusCode : Nat) (body : String)
  | netError (msg : String)
  deriving DecidableEq

/-- Transport oracle for the Claude API client: the HTTP round trip on
the marshalled request, and JSON decoding of the response body. -/
structure ClaudeWorld where
  send : Ctx → ClaudeRequest → HttpResult
  unmarshal : String → Option ClaudeResponse

/-- GenerateContentWithSystemPrompt of ClaudeClient (llm/claude_api.go):
build the request (system prompt attached only when non-empty), perform
the round trip, fail on transport error, non-200 status, undecodable
body or empty content list, and otherwise return the first content
block's text. -/
def ClaudeClient.GenerateContentWithSystemPrompt (w : ClaudeWorld) (ctx : Ctx)
    (c : ClaudeClient) (systemPrompt userPrompt : String) : Except String String :=
  let req : ClaudeRequest :=
    { Model := c.model
      MaxTokens := 4000
      Messages := [{ Role := "user", Content := userPrompt }]
      System := if systemPrompt != "" then systemPrompt else "" }
  match w.send ctx req with
  | .netError e => .error ("failed to make request: " ++ e)
  | .ok statusCode body =>
    if statusCode != 200 then
      .error ("API request failed with status " ++ toString statusCode ++ ": " ++ body)
    else
      match w.unmarshal body with
      | none => .error "failed to unmarshal response"
      | some claudeResp =>
        match claudeResp.Content with
        | [] => .error "no content in response"
        | c0 :: _ => .ok c0.Text

/-- GenerateContent of ClaudeClient: the source's literal delegation
`return c.GenerateContentWithSystemPrompt(ctx, "", prompt)`. -/
def ClaudeClient.GenerateContent (w : ClaudeWorld) (ctx : Ctx) (c : ClaudeClient)
    (prompt : String) : Except String String :=
  c.GenerateContentWithSystemPrompt w ctx "" prompt

/-- OpenAIMessage from llm/types.go. -/
structure OpenAIMessage where
  Role : String
  Content : String
  deriving DecidableEq

/-- OpenAIRequest from llm/types.go (temperature held fixed at the
constant the source uses, scaled by ten to stay in Nat). -/
structure OpenAIRequest where
  Model : String
  Messages : List OpenAIMessage
  MaxTokens : Nat
  TemperatureTenths : Nat
  deriving DecidableEq

/-- OpenAIResponse from llm/types.go, reduced to the fields the client
reads: id and the choices' message contents. -/
structure OpenAIResponse where
  ID : String
  Choices : List OpenAIMessage
  deriving DecidableEq

/-- OpenAIClient from llm/types.go. -/
structure OpenAIClient where
  apiKey : String
  baseURL : String
  model : String
  deriving DecidableEq

/-- Transport oracle for the OpenAI client. -/
structure OpenAIWorld where
  send : Ctx → OpenAIRequest → HttpResult
  unmarshal : String → Option OpenAIResponse

/-- GenerateContentWithSystemPrompt of OpenAIClient: the system message
is prepended only when the system prompt is non-empty; failure cases
mirror the Claude client with "no choices in response" for an empty
choice list. -/
def OpenAIClient.GenerateContentWithSystemPrompt (w : OpenAIWorld) (ctx : Ctx)
    (c : OpenAIClient) (systemPrompt userPrompt : String) : Except String String :=
  let messages :=
    (if systemPrompt != "" then [({ Role := "system", Content := systemPrompt } : OpenAIMessage)]
     else []) ++ [{ Role := "user", Content := userPrompt }]
  let req : OpenAIRequest :=
    { Model := c.model, Messages := messages, MaxTokens := 4000, TemperatureTenths := 7 }
  match w.send ctx req with
  | .netError e => .error ("failed to make request: " ++ e)
  | .ok statusCode body =>
    if statusCode != 200 then
      .error ("API request failed with status " ++ toString statusCode ++ ": " ++ body)
    else
      match w.unmarshal body with
      | none => .error "failed to unmarshal response"
      | some openaiResp =>
        match openaiResp.Choices with
        | [] => .error "no choices in response"
        | m0 :: _ => .ok m0.Content

/-- GenerateContent of OpenAIClient: the source's literal delegation
with an empty system prompt. -/
def OpenAIClient.GenerateContent (w : OpenAIWorld) (ctx : Ctx) (c : OpenAIClient)
    (prompt : String) : Except String String :=
  c.GenerateContentWithSystemPrompt w ctx "" prompt

/-- ClaudeCLIClient from llm/types.go. -/
structure ClaudeCLIClient where
  execPath : String
  deriving DecidableEq

/-- Outcome of running the CLI process: optional run error plus captured
stdout and stderr. -/
structure CmdResult where
  runErr : Option String
  stdout : String
  stderr : String
  deriving DecidableEq

/-- Transport oracle for the CLI client: running the prepared command. -/
structure CLIWorld where
  run : Ctx → List String → CmdResult

/-- GenerateContentWithSystemPrompt of ClaudeCLIClient
(llm/claude_cli.go): when the system prompt is non-empty the two prompts
are combined into one "System: ...\n\nUser: ..." argument; the command
output is trimmed and an empty trimmed output is an error. -/
def ClaudeCLIClient.GenerateContentWithSystemPrompt (w : CLIWorld) (ctx : Ctx)
    (c : ClaudeCLIClient) (systemPrompt userPrompt : String) : Except String String :=
  let args :=
    if systemPrompt != "" then
      [c.execPath, "--print", "--output-format", "text",
        "System: " ++ systemPrompt ++ "\n\nUser: " ++ userPrompt]
    else
      [c.execPath, "--print", "--output-format", "text", userPrompt]
  let result := w.run ctx args
  match result.runErr with
  | some e => .error ("claude CLI execution failed: " ++ e ++ " (stderr: " ++ result.stderr ++ ")")
  | none =>
    let response := result.stdout.trim
    if response = "" then
      .error ("claude CLI returned empty response (stderr: " ++ result.stderr ++ ")")
    else
      .ok response

/-- GenerateContent of ClaudeCLIClient: the source's literal delegation
with an empty system prompt. -/
def ClaudeCLIClient.GenerateContent (w : CLIWorld) (ctx : Ctx) (c : ClaudeCLIClient)
    (prompt : String) : Except String String :=
  c.GenerateContentWithSystemPrompt w ctx "" prompt

end Commitlore

deriving instance DecidableEq for Except

namespace Commitlore

/-! Concrete fixtures used by witnesses and counterexamples. -/

/-- A concrete process environment: ANTHROPIC_API_KEY holds a value,
every other variable (including FOO_KEY) reads as the empty string, and
the claude executable resolves on PATH. -/
def testEnv : Env :=
  { getenv := fun v => if v = "ANTHROPIC_API_KEY" then "sk-test" else ""
    lookPath := fun exe => if exe = "claude" then some "/usr/bin/claude" else none }

/-- A HostedAPI descriptor whose credential key names the environment
variable FOO_KEY (which is empty in testEnv). -/
def fooProvider : Provider :=
  { ID := "foo-api", Name := "Foo", typ := "api", Description := "",
    Enabled := true, Available := false, Config := [("api_key", "FOO_KEY")] }

/-- Substring test on character lists: true iff the needle occurs as a
contiguous run inside the haystack. -/
def listHasSub (needle : List Char) : List Char → Bool
  | [] => needle.isPrefixOf []
  | c :: rest => needle.isPrefixOf (c :: rest) || listHasSub needle rest

/-- Folding the append-if loop of GetAvailableProviders is filtering. -/
theorem foldl_append_eq_filter (pred : Provider → Bool) (l acc : List Provider) :
    l.foldl (fun available p => if pred p then available ++ [p] else available) acc
      = acc ++ l.filter pred := by
  induction l generalizing acc with
  | nil => simp
  | cons x xs ih =>
    by_cases h : pred x
    · simp [List.foldl_cons, h, ih, List.filter_cons, List.append_assoc]
    · simp [List.foldl_cons, h, ih, List.filter_cons]

/-- C6: for every registry and environment, RefreshAvailability
(UpdateProviderAvailability) followed by ListAvailable
(GetAvailableProviders) returns exactly the refreshed descriptors with
enabled and (freshly probed) available both true, as the order-preserving
filter of the refreshed provider list, which itself is the original list
with only the Available field recomputed. -/
theorem refresh_then_list_exactly_enabled_available (env : Env) (config : ProviderConfig) :
    GetAvailableProviders (UpdateProviderAvailability env config)
        = (UpdateProviderAvailability env config).Providers.filter
            (fun p => p.Enabled && p.Available)
      ∧ List.Sublist
          (GetAvailableProviders (UpdateProviderAvailability env config))
          (UpdateProviderAvailability env config).Providers
      ∧ (∀ p, p ∈ GetAvailableProviders (UpdateProviderAvailability env config) ↔
          p ∈ (UpdateProviderAvailability env config).Providers
            ∧ p.Enabled = true ∧ p.Available = true)
      ∧ (UpdateProviderAvailability env config).Providers
          = config.Providers.map (fun p =>
              { p with Available := CheckProviderAvailability env p }) := by
  have hmain : GetAvailableProviders (UpdateProviderAvailability env config)
      = (UpdateProviderAvailability env config).Providers.filter
          (fun p => p.Enabled && p.Available) := by
    unfold GetAvailableProviders
    simpa using foldl_append_eq_filter (fun p => p.Enabled && p.Available)
      (UpdateProviderAvailability env config).Providers []
  refine ⟨hmain, ?_, ?_, rfl⟩
  · rw [hmain]; simp [List.filter_sublist]
  · intro p
    rw [hmain]
    simp [List.mem_filter]

/-- C7: for every descriptor of the HostedAPI family, the availability
probe succeeds iff the config maps "api_key" to an environment-variable
name whose value in the current environment is non-empty.  In
particular a missing credential key, or a variable set to the empty
string, yields unavailable. -/
theorem api_probe_iff_nonempty_credential (env : Env) (p : Provider)
    (h : p.typ = APIProviderType) :
    CheckProviderAvailability env p = true ↔
      ∃ envVar, p.Config.lookup "api_key" = some envVar ∧ env.getenv envVar ≠ "" := by
  unfold CheckProviderAvailability
  rw [if_pos h]
  cases hl : p.Config.lookup "api_key" with
  | none => simp
  | some v => simp [bne_iff_ne]

/-- Witness for C7 at the spec scenario: a HostedAPI descriptor
configured with env-var name FOO_KEY, while the environment has FOO_KEY
empty, probes unavailable. -/
theorem api_probe_iff_nonempty_credential_witness :
    CheckProviderAvailability testEnv fooProvider = false := by
  have h := api_probe_iff_nonempty_credential testEnv fooProvider rfl
  rw [Bool.eq_false_iff]
  intro htrue
  obtain ⟨v, hv, hne⟩ := h.mp htrue
  have hv2 : v = "FOO_KEY" := by
    have : fooProvider.Config.lookup "api_key" = some "FOO_KEY" := by decide
    rw [this] at hv
    exact (Option.some.injEq _ _).mp hv.symm
  subst hv2
  exact hne (by decide)

/-- C9: in each backend implementation (Claude API client, OpenAI
client, Claude CLI client), GenerateContent is exactly
GenerateContentWithSystemPrompt called with an empty system prompt, for
every context, prompt, client value and transport behavior. -/
theorem generate_content_delegates_to_system_prompt (ctx : Ctx) (prompt : String)
    (cw : ClaudeWorld) (cc : ClaudeClient) (ow : OpenAIWorld) (oc : OpenAIClient)
    (lw : CLIWorld) (kc : ClaudeCLIClient) :
    cc.GenerateContent cw ctx prompt = cc.GenerateContentWithSystemPrompt cw ctx "" prompt
      ∧ oc.GenerateContent ow ctx prompt = oc.GenerateContentWithSystemPrompt ow ctx "" prompt
      ∧ kc.GenerateContent lw ctx prompt = kc.GenerateContentWithSystemPrompt lw ctx "" prompt :=
  ⟨rfl, rfl, rfl⟩

/-- The three validation error strings of CreateActiveProvider are
pairwise distinct for any provider id, because their suffixes after the
quoted id have three different lengths. -/
theorem active_error_strings_pairwise_distinct (id : String) :
    errActiveNotFound id ≠ errActiveDisabled id
      ∧ errActiveNotFound id ≠ errActiveUnavailable id
      ∧ errActiveDisabled id ≠ errActiveUnavailable id := by
  have l1 : ("\x27 not found" : String).length = 11 := rfl
  have l2 : ("\x27 is disabled" : String).length = 13 := rfl
  have l3 : ("\x27 is not available" : String).length = 18 := rfl
  refine ⟨?_, ?_, ?_⟩ <;> intro h <;>
    · have hl := congrArg String.length h
      simp [errActiveNotFound, errActiveDisabled, errActiveUnavailable,
        String.length_append, l1, l2, l3] at hl

/-- C4: CreateActiveProvider fails with three distinguishable errors
for the three validation failures: a not-found error when the active id
matches no descriptor, a disabled error when the descriptor exists but
is not enabled, and an unavailable error when the descriptor is enabled
but the fresh availability probe fails; the three error strings are
pairwise distinct for any id, and the unavailable error contains the
offending provider id as a substring. -/
theorem create_active_three_distinct_errors (env : Env) (config : ProviderConfig) :
    (GetProviderByID config config.ActiveProviderID = none →
      CreateActiveProvider env config = .error (errActiveNotFound config.ActiveProviderID))
    ∧ (∀ p, GetProviderByID config config.ActiveProviderID = some p →
        (p.Enabled = false →
          CreateActiveProvider env config = .error (errActiveDisabled p.ID))
        ∧ (p.Enabled = true → CheckProviderAvailability env p = false →
            CreateActiveProvider env config = .error (errActiveUnavailable p.ID)
              ∧ ∃ s t, (errActiveUnavailable p.ID).data = s ++ p.ID.data ++ t))
    ∧ (∀ id, errActiveNotFound id ≠ errActiveDisabled id
        ∧ errActiveNotFound id ≠ errActiveUnavailable id
        ∧ errActiveDisabled id ≠ errActiveUnavailable id) := by
  refine ⟨?_, ?_, active_error_strings_pairwise_distinct⟩
  · intro h
    unfold CreateActiveProvider
    rw [h]
  · intro p hp
    constructor
    · intro hdis
      unfold CreateActiveProvider
      rw [hp]
      simp [hdis]
    · intro hen hunav
      constructor
      · unfold CreateActiveProvider
        rw [hp]
        simp [hen, hunav]
      · refine ⟨("active provider \x27" : String).data, ("\x27 is not available" : String).data, ?_⟩
        unfold errActiveUnavailable
        rw [String.data_append, String.data_append]

/-- A registry whose active descriptor is enabled but probes
unavailable: id "a" of the HostedAPI family with no credential
configured. -/
def unavailableRegistry : ProviderConfig :=
  { Providers := [{ ID := "a", Name := "A", typ := "api", Description := "",
                    Enabled := true, Available := false, Config := [] }]
    ActiveProviderID := "a" }

/-- Witness for C4 at the spec scenario: with descriptor
(id "a", enabled, unavailable) active, CreateActiveProvider returns the
unavailable error for id "a". -/
theorem create_active_three_distinct_errors_witness :
    CreateActiveProvider testEnv unavailableRegistry = .error (errActiveUnavailable "a") := by
  have h := ((create_active_three_distinct_errors testEnv unavailableRegistry).2.1
      { ID := "a", Name := "A", typ := "api", Description := "",
        Enabled := true, Available := false, Config := [] }
      (by decide)).2 rfl (by decide)
  exact h.1

/-- Erase the stored Available flag of a descriptor. -/
def scrubProvider (p : Provider) : Provider := { p with Available := false }

/-- Erase every stored Available flag of a registry.  Two registries
differ only in their stored Available flags exactly when their scrubs
are equal. -/
def scrubConfig (config : ProviderConfig) : ProviderConfig :=
  { Providers := config.Providers.map scrubProvider
    ActiveProviderID := config.ActiveProviderID }

theorem scrubProvider_idem (p : Provider) : scrubProvider (scrubProvider p) = scrubProvider p := rfl

theorem scrubConfig_idem (config : ProviderConfig) :
    scrubConfig (scrubConfig config) = scrubConfig config := by
  simp [scrubConfig, scrubProvider_idem]

theorem scrubProvider_Enabled (p : Provider) : (scrubProvider p).Enabled = p.Enabled := rfl

theorem check_scrub (env : Env) (p : Provider) :
    CheckProviderAvailability env (scrubProvider p) = CheckProviderAvailability env p := rfl

theorem createProvider_scrub (env : Env) (p : Provider) :
    createProvider env (scrubProvider p) = createProvider env p := rfl

theorem getProviderByID_scrub (config : ProviderConfig) (id : String) :
    GetProviderByID (scrubConfig config) id = (GetProviderByID config id).map scrubProvider := by
  unfold GetProviderByID scrubConfig
  exact List.find?_map scrubProvider config.Providers

theorem createActive_scrub (env : Env) (config : ProviderConfig) :
    CreateActiveProvider env (scrubConfig config) = CreateActiveProvider env config := by
  unfold CreateActiveProvider
  rw [show (scrubConfig config).ActiveProviderID = config.ActiveProviderID from rfl,
    getProviderByID_scrub]
  cases GetProviderByID config config.ActiveProviderID with
  | none => rfl
  | some p => rfl

theorem createByID_scrub (env : Env) (config : ProviderConfig) (id : String) :
    CreateProvider env (scrubConfig config) id = CreateProvider env config id := by
  unfold CreateProvider
  rw [getProviderByID_scrub]
  cases GetProviderByID config id with
  | none => rfl
  | some p => rfl

theorem setActive_scrub (env : Env) (fs : PersistedRecord) (config : ProviderConfig)
    (id : String) :
    (SetActiveProvider env fs (scrubConfig config) id).map (fun x => (scrubConfig x.1, x.2))
      = (SetActiveProvider env fs config id).map (fun x => (scrubConfig x.1, x.2)) := by
  unfold SetActiveProvider
  rw [getProviderByID_scrub]
  cases GetProviderByID config id with
  | none => rfl
  | some p =>
    simp only [Option.map_some']
    rw [check_scrub]
    by_cases he : p.Enabled <;> by_cases ha : CheckProviderAvailability env p <;>
      simp [he, ha, SaveProviderConfig, scrubConfig, Except.map, List.map_map,
        Function.comp_def, scrubProvider_idem, scrubProvider_Enabled]

/-- C10: the factory never reads the stored Available field.  For any
two registries whose scrubs agree (they differ only in stored Available
flags), and for the same environment, CreateActiveProvider and
CreateProvider return identical results, and SetActiveProvider returns
the same outcome up to the stored Available flags of the registry it
hands back (its validation runs the probe fresh against the
environment). -/
theorem factory_ignores_stored_available (env : Env) (fs : PersistedRecord)
    (cfg1 cfg2 : ProviderConfig) (h : scrubConfig cfg1 = scrubConfig cfg2) :
    CreateActiveProvider env cfg1 = CreateActiveProvider env cfg2
      ∧ (∀ id, CreateProvider env cfg1 id = CreateProvider env cfg2 id)
      ∧ (∀ id, (SetActiveProvider env fs cfg1 id).map (fun x => (scrubConfig x.1, x.2))
          = (SetActiveProvider env fs cfg2 id).map (fun x => (scrubConfig x.1, x.2))) := by
  refine ⟨?_, fun id => ?_, fun id => ?_⟩
  · rw [← createActive_scrub env cfg1, h, createActive_scrub]
  · rw [← createByID_scrub env cfg1 id, h, createByID_scrub]
  · rw [← setActive_scrub env fs cfg1 id, h, setActive_scrub]

/-- The default registry with every stored Available flag forced to
true (a stale cache). -/
def staleAvailableRegistry : ProviderConfig :=
  { Providers := DefaultProviderConfig.Providers.map fun p => { p with Available := true }
    ActiveProviderID := DefaultProviderConfig.ActiveProviderID }

/-- Witness for C10: the default registry and its stale-Available
variant yield the same CreateActiveProvider result under the test
environment. -/
theorem factory_ignores_stored_available_witness :
    CreateActiveProvider testEnv DefaultProviderConfig
      = CreateActiveProvider testEnv staleAvailableRegistry :=
  (factory_ignores_stored_available testEnv .absent DefaultProviderConfig
    staleAvailableRegistry (by decide)).1

/-- A run in which the parent context is cancelled at time 1, the
provider returns ("ok", nil) at time 2 with a 10-unit deadline, and the
runtime takes the Done case of the select. -/
def cancelledRun : DispatchRun :=
  { latency := 2, resContent := "ok", resErr := none,
    timeout := 10, cancelAt := some 1, pickDone := true }

/-- C1 counterexample: in cancelledRun, `timeoutCtx.Err()` is Canceled
rather than DeadlineExceeded, so nothing is sent and the channel
closes; the UI's receive yields the zero-value message (empty content,
empty error), an observed outcome that is neither the backend's genuine
result nor a Timeout, refuting the claim for runs with context
cancellation. -/
theorem one_outcome_counterexample :
    observedOutcome cancelledRun = { Content := "", Error := "" }
      ∧ observedOutcome cancelledRun ≠ genuineMsg cancelledRun
      ∧ observedOutcome cancelledRun ≠ timeoutMsg
      ∧ dispatchSends cancelledRun = [] := by
  refine ⟨rfl, by decide, by decide, rfl⟩

/-- C1 as amended: every run delivers at most one message on the
channel and the UI's single receive always completes, so exactly one
outcome is observed; and in every run whose parent context is never
cancelled, the observed outcome is either the backend's genuine result
or the Timeout message.  (Under parent cancellation the observed
outcome may instead be the zero-value message.) -/
theorem exactly_one_outcome_without_cancellation (r : DispatchRun)
    (h : r.cancelAt = none) :
    (dispatchSends r).length ≤ 1
      ∧ (observedOutcome r = genuineMsg r ∨ observedOutcome r = timeoutMsg) := by
  have hdt : ctxDoneTime r = r.timeout := by simp [ctxDoneTime, h]
  have herr : ctxErr r = .deadlineExceeded := by simp [ctxErr, hdt]
  constructor
  · unfold dispatchSends
    split_ifs <;> simp
  · unfold observedOutcome dispatchSends
    split_ifs with h1 h2
    · exact Or.inl rfl
    · exact Or.inl rfl
    · exact Or.inr rfl

/-- A run finishing well before its deadline, with no cancellation. -/
def promptRun : DispatchRun :=
  { latency := 1, resContent := "hi", resErr := none,
    timeout := 30, cancelAt := none, pickDone := false }

/-- Witness for C1 as amended: promptRun observes exactly the genuine
result. -/
theorem exactly_one_outcome_without_cancellation_witness :
    (dispatchSends promptRun).length ≤ 1
      ∧ (observedOutcome promptRun = genuineMsg promptRun
          ∨ observedOutcome promptRun = timeoutMsg) :=
  exactly_one_outcome_without_cancellation promptRun rfl

/-- The spec scenario of a backend sleeping 5 units against a 1-unit
deadline, in the run where the runtime picks the send case of the
select. -/
def lateSendRun : DispatchRun :=
  { latency := 5, resContent := "ok", resErr := none,
    timeout := 1, cancelAt := none, pickDone := false }

/-- C2 counterexample: in lateSendRun the goroutine is blocked on the
provider call, so nothing can be delivered at the deadline; at time 5
both select cases are ready, and since the runtime picks the send case
the delivered outcome is the backend's late genuine result ("ok"), not
a Timeout, delivered at time 5 rather than at the 1-unit deadline. -/
theorem timeout_discards_late_result_counterexample :
    observedOutcome lateSendRun = { Content := "ok", Error := "" }
      ∧ observedOutcome lateSendRun ≠ timeoutMsg
      ∧ deliveryTime lateSendRun = 5
      ∧ lateSendRun.timeout = 1 := by
  refine ⟨rfl, by decide, rfl, rfl⟩

/-- C2 as amended: when the deadline elapses before the backend call
returns (and the parent context is not cancelled), the outcome is
delivered at the backend's return time, not at the deadline, and it is
the Timeout message when the runtime picks the Done case of the select
but the backend's own late result when the runtime picks the send case;
the late result is therefore not always discarded. -/
theorem late_backend_delivery (r : DispatchRun) (h1 : r.cancelAt = none)
    (h2 : r.timeout ≤ r.latency) :
    deliveryTime r = r.latency
      ∧ observedOutcome r = (if r.pickDone then timeoutMsg else genuineMsg r) := by
  have hdt : ctxDoneTime r = r.timeout := by simp [ctxDoneTime, h1]
  have hdone : ctxDone r = true := by simp [ctxDone, hdt, h2]
  have herr : ctxErr r = .deadlineExceeded := by simp [ctxErr, hdt]
  refine ⟨rfl, ?_⟩
  unfold observedOutcome dispatchSends
  rw [hdone]
  cases hp : r.pickDone with
  | false => rfl
  | true =>
    rw [if_pos herr]
    rfl

/-- The same 5-unit backend against the 1-unit deadline, in the run
where the runtime picks the Done case of the select. -/
def lateDoneRun : DispatchRun :=
  { latency := 5, resContent := "late", resErr := none,
    timeout := 1, cancelAt := none, pickDone := true }

/-- Witness for C2 as amended: lateDoneRun delivers the Timeout message
at time 5. -/
theorem late_backend_delivery_witness :
    deliveryTime lateDoneRun = lateDoneRun.latency
      ∧ observedOutcome lateDoneRun
          = (if lateDoneRun.pickDone then timeoutMsg else genuineMsg lateDoneRun) :=
  late_backend_delivery lateDoneRun rfl (by decide)

/-- The default registry with the active provider switched to
claude-api, the value SetActiveProvider produces in memory. -/
def activeClaudeApiRegistry : ProviderConfig :=
  { Providers := DefaultProviderConfig.Providers
    ActiveProviderID := "claude-api" }

/-- C3 counterexample: under an environment where claude-api is
present, enabled and available, SetActiveProvider succeeds and sets the
in-memory active id to "claude-api", but a subsequent
LoadProviderConfig (simulating restart) returns the default registry
whose active id is "claude-cli", not "claude-api": the current source
persists nothing, so the set-then-load round trip does not return the
id that was set. -/
theorem set_active_then_load_counterexample :
    SetActiveProvider testEnv .absent DefaultProviderConfig "claude-api"
        = .ok (activeClaudeApiRegistry, .absent)
      ∧ LoadProviderConfig .absent = .ok DefaultProviderConfig
      ∧ DefaultProviderConfig.ActiveProviderID ≠ "claude-api" := by
  refine ⟨by decide, rfl, by decide⟩

/-- C3 as amended: whenever SetActiveProvider succeeds it updates the
in-memory registry's active id to the requested id, but save is a
no-op, so a subsequent LoadProviderConfig returns the default registry
whose active id is "claude-cli" regardless of the id that was set; the
round trip yields the requested id only when that id is "claude-cli". -/
theorem set_active_then_load_returns_default (env : Env) (fs : PersistedRecord)
    (config : ProviderConfig) (id : String) (config2 : ProviderConfig)
    (fs2 : PersistedRecord)
    (h : SetActiveProvider env fs config id = .ok (config2, fs2)) :
    config2.ActiveProviderID = id
      ∧ LoadProviderConfig fs2 = .ok DefaultProviderConfig
      ∧ DefaultProviderConfig.ActiveProviderID = "claude-cli" := by
  refine ⟨?_, rfl, rfl⟩
  unfold SetActiveProvider at h
  cases hg : GetProviderByID config id with
  | none =>
    rw [hg] at h
    exact absurd h (by simp)
  | some p =>
    rw [hg] at h
    by_cases he : p.Enabled
    · by_cases ha : CheckProviderAvailability env p
      · simp [he, ha, SaveProviderConfig] at h
        rw [← h.1]
      · simp [he, ha] at h
    · simp [he] at h

/-- Witness for C3 as amended: setting claude-api under the test
environment succeeds, and the theorem applies to that concrete call. -/
theorem set_active_then_load_returns_default_witness :
    activeClaudeApiRegistry.ActiveProviderID = "claude-api"
      ∧ LoadProviderConfig .absent = .ok DefaultProviderConfig
      ∧ DefaultProviderConfig.ActiveProviderID = "claude-cli" :=
  set_active_then_load_returns_default testEnv .absent DefaultProviderConfig
    "claude-api" activeClaudeApiRegistry .absent (by decide)

/-- C5 counterexample: with a corrupt persisted record on disk,
LoadProviderConfig does not return a typed error; it succeeds with the
default registry, because the current source never reads the record at
all. -/
theorem load_corrupt_record_counterexample :
    LoadProviderConfig (.corrupt "this is not valid json")
      = .ok DefaultProviderConfig := rfl

/-- C5 as amended: LoadProviderConfig ignores the persisted record
entirely; for every on-disk state (absent, corrupt or valid) it
succeeds with the default registry, and it never writes defaults back
either, since SaveProviderConfig leaves the record unchanged. -/
theorem load_ignores_persisted_record (fs : PersistedRecord) (config : ProviderConfig) :
    LoadProviderConfig fs = .ok DefaultProviderConfig
      ∧ SaveProviderConfig fs config = (fs, none) :=
  ⟨rfl, rfl⟩

/-- An unrecognized id within the recognized HostedAPI family. -/
def fooApiProvider : Provider :=
  { ID := "foo", Name := "Foo", typ := "api", Description := "",
    Enabled := true, Available := false, Config := [] }

/-- C8 counterexample: for the unrecognized id "foo" within the
recognized HostedAPI family, construction fails with
"unsupported API provider: foo", which does not contain the phrase
"not yet implemented"; the not-yet-implemented error is reserved for
the recognized-but-unwired ids. -/
theorem unrecognized_id_error_counterexample :
    createAPIProvider testEnv fooApiProvider = .error "unsupported API provider: foo"
      ∧ listHasSub ("not yet implemented").data ("unsupported API provider: foo").data = false
      ∧ listHasSub ("not yet implemented").data
          ("OpenAI API provider not yet implemented").data = true := by
  refine ⟨by decide, by decide, by decide⟩

/-- C8 as amended: recognized ids with no backend wired up (openai-api,
gemini-api in the HostedAPI family, ollama in the LocalService family)
fail with their own "not yet implemented" errors, while an unrecognized
id within a recognized family fails with a distinct
"unsupported ... provider: id" error, which is a different error string
from each not-yet-implemented error. -/
theorem unwired_and_unsupported_errors (env : Env) (p q r s : Provider)
    (hp : p.ID = "openai-api") (hq : q.ID = "gemini-api") (hr : r.ID = "ollama")
    (hs1 : s.ID ≠ "claude-api") (hs2 : s.ID ≠ "openai-api") (hs3 : s.ID ≠ "gemini-api") :
    createAPIProvider env p = .error "OpenAI API provider not yet implemented"
      ∧ createAPIProvider env q = .error "Gemini API provider not yet implemented"
      ∧ createLocalProvider env r = .error "Ollama provider not yet implemented"
      ∧ createAPIProvider env s = .error ("unsupported API provider: " ++ s.ID)
      ∧ ("unsupported API provider: " ++ s.ID) ≠ "OpenAI API provider not yet implemented"
      ∧ ("unsupported API provider: " ++ s.ID) ≠ "Gemini API provider not yet implemented"
      ∧ ("unsupported API provider: " ++ s.ID) ≠ "Ollama provider not yet implemented" := by
  have hne1 : ("openai-api" : String) ≠ "claude-api" := by decide
  have hne2 : ("gemini-api" : String) ≠ "claude-api" := by decide
  have hne3 : ("gemini-api" : String) ≠ "openai-api" := by decide
  refine ⟨?_, ?_, ?_, ?_, ?_, ?_, ?_⟩
  · unfold createAPIProvider
    rw [hp, if_neg hne1, if_pos rfl]
  · unfold createAPIProvider
    rw [hq, if_neg hne2, if_neg hne3, if_pos rfl]
  · unfold createLocalProvider
    rw [hr, if_pos rfl]
  · unfold createAPIProvider
    rw [if_neg hs1, if_neg hs2, if_neg hs3]
  all_goals
    intro hcontra
    have hdata := congrArg String.data hcontra
    rw [String.data_append] at hdata
    have hhead := congrArg List.head? hdata
    rw [show ("unsupported API provider: " : String).data
        = 'u' :: ("nsupported API provider: " : String).data from rfl] at hhead
    simp at hhead

/-- Witness for C8 as amended: concrete providers for each of the four
cases. -/
theorem unwired_and_unsupported_errors_witness :
    createAPIProvider testEnv { fooApiProvider with ID := "openai-api" }
        = .error "OpenAI API provider not yet implemented"
      ∧ createAPIProvider testEnv { fooApiProvider with ID := "gemini-api" }
          = .error "Gemini API provider not yet implemented"
      ∧ createLocalProvider testEnv { fooApiProvider with ID := "ollama" }
          = .error "Ollama provider not yet implemented"
      ∧ createAPIProvider testEnv fooApiProvider
          = .error ("unsupported API provider: " ++ fooApiProvider.ID)
      ∧ ("unsupported API provider: " ++ fooApiProvider.ID)
          ≠ "OpenAI API provider not yet implemented"
      ∧ ("unsupported API provider: " ++ fooApiProvider.ID)
          ≠ "Gemini API provider not yet implemented"
      ∧ ("unsupported API provider: " ++ fooApiProvider.ID)
          ≠ "Ollama provider not yet implemented" :=
  unwired_and_unsupported_errors testEnv
    { fooApiProvider with ID := "openai-api" }
    { fooApiProvider with ID := "gemini-api" }
    { fooApiProvider with ID := "ollama" }
    fooApiProvider rfl rfl rfl (by decide) (by decide) (by decide)

end Commitlore
